import Mathlib

/-!
# Verification of `pynamixel` (`src/pynamixel/config.py`)

A shallow embedding of the configuration store in `src/pynamixel/config.py`:
the `ConfigManager` class, the `ConfigLoaderBase` strategy interface and its
two concrete variants `YamlConfigLoader` and `JsonConfigLoader`.

Modelling conventions:

* Python values are the inductive `PyVal`; Python `None` is `PyVal.none`,
  `pathlib.Path(s)` is `PyVal.path s`, dictionaries are insertion-ordered
  association lists (as Python dicts are).
* A Python object's `__dict__` is an insertion-ordered association list from
  attribute names to stored values.  Private attributes appear under their
  name-mangled keys exactly as CPython stores them: `self.__config_data`
  inside `class ConfigManager` is the key `"_ConfigManager__config_data"`,
  `self.__file_path` inside `class ConfigLoaderBase` is
  `"_ConfigLoaderBase__file_path"`, while the same expression inside
  `class YamlConfigLoader` / `class JsonConfigLoader` is
  `"_YamlConfigLoader__file_path"` / `"_JsonConfigLoader__file_path"`.
  String literals such as `"__config"` are never mangled.
* Exceptions are the `PyErr` inductive; fallible operations return
  `Except PyErr`.  Python's exception names map to the spec's taxonomy as
  follows: `FileNotFoundError` = `MissingFileError`, `ValueError` =
  `InvalidConfigError` / `InvalidArgumentError`, `AssertionError` =
  `PreconditionError`, `AttributeError` = `AttributeNotFoundError`, and
  decode failures of the json/yaml libraries = `DecodeError`.
* Mutation of `self` survives a raised exception, so stateful operations
  return the (possibly mutated) object next to the `Except` result.
* The filesystem is a map from path strings to file contents, plus a set of
  paths where opening for write raises `OSError`.
* The external `json` and `yaml` libraries are modelled by executable
  encoders/decoders on the fragment of documents this repository
  manipulates (scalars, flat sequences and flat string-keyed mappings,
  strings free of characters that would need quoting or escaping); values
  outside the fragment are treated as an encoding failure, which the
  `save_config` `try`/`except` turns into `False` exactly as a real
  serialization error would be.
-/

set_option autoImplicit false

namespace Pynamixel

/-- Python runtime values, restricted to the shapes the repository
manipulates: `None`, booleans, integers, strings, `pathlib.Path` objects,
lists, and insertion-ordered string-keyed dictionaries. -/
inductive PyVal where
  | none
  | bool (b : Bool)
  | int (n : Int)
  | str (s : String)
  | path (s : String)
  | pylist (xs : List PyVal)
  | pydict (entries : List (String × PyVal))

/-- A value stored in a `ConfigManager` attribute slot: either a plain
Python value or a loader object (`YamlConfigLoader` / `JsonConfigLoader`
instances are objects of their own, held by reference). -/
inductive LoaderKind where
  | yaml
  | json
deriving Repr, DecidableEq

/-- A loader object: which concrete class it is an instance of, and its
instance `__dict__` (attribute names, including mangled ones, to values). -/
structure LoaderObj where
  kind : LoaderKind
  attrs : List (String × PyVal)

/-- An attribute stored in a `ConfigManager`'s `__dict__`. -/
inductive Attr where
  | val (v : PyVal)
  | loaderA (l : LoaderObj)

/-- Python exceptions raised by the code under verification. -/
inductive PyErr where
  | valueError (msg : String)
  | assertionError (msg : String)
  | fileNotFound (msg : String)
  | attributeError (msg : String)
  | keyError (key : String)
  | typeError (msg : String)
  | decodeError (msg : String)
  | osError (msg : String)
deriving Repr, DecidableEq

/-- Lookup in an insertion-ordered association list (Python `dict.get`). -/
def dget {α : Type} : List (String × α) → String → Option α
  | [], _ => Option.none
  | (k2, v) :: rest, k => if k2 = k then some v else dget rest k

/-- Update in an insertion-ordered association list (Python `d[k] = v`):
an existing key keeps its position, a new key is appended. -/
def dset {α : Type} : List (String × α) → String → α → List (String × α)
  | [], k, v => [(k, v)]
  | (k2, v2) :: rest, k, v =>
      if k2 = k then (k2, v) :: rest else (k2, v2) :: dset rest k v

/-- Truthiness of a Python value (`bool(v)`), per CPython rules for the
shapes in `PyVal`; `Path` objects are always truthy. -/
def pyTruthy : PyVal → Bool
  | .none => false
  | .bool b => b
  | .int n => n != 0
  | .str s => s != ""
  | .path _ => true
  | .pylist xs => !xs.isEmpty
  | .pydict m => !m.isEmpty

/-- Truthiness of an attribute value: loader objects are always truthy. -/
def attrTruthy : Attr → Bool
  | .val v => pyTruthy v
  | .loaderA _ => true

/-- `isinstance(v, (str, Path))`. -/
def isStrOrPath : PyVal → Bool
  | .str _ => true
  | .path _ => true
  | _ => false

/-- The underlying string of a `str` or `Path` value (what `os.path.exists`
and `open` consume; anything else makes them raise `TypeError`). -/
def pyPathStr : PyVal → Option String
  | .str s => some s
  | .path s => some s
  | _ => Option.none

/-- `isinstance(v, dict)`. -/
def PyVal.isDict : PyVal → Bool
  | .pydict _ => true
  | _ => false

/-- The filesystem: file contents by path, plus the set of paths where
opening for write fails (e.g. permission denied), which models the
I/O-fault branch of the tests. -/
structure FS where
  files : List (String × String)
  failWrites : List String
deriving Repr, DecidableEq

/-- `os.path.exists`. -/
def FS.pathExists (fs : FS) (p : String) : Bool :=
  (dget fs.files p).isSome

/-- `open(p).read()` for an existing file. -/
def FS.read (fs : FS) (p : String) : Option String :=
  dget fs.files p

/-- `v is None`. -/
def PyVal.isNone : PyVal → Bool
  | .none => true
  | _ => false

/-! ## Model of the external `json` library

`json.dumps(v, indent=4)` and `json.loads(s)` on the fragment of documents
this repository manipulates: scalars, flat lists of scalars and flat
string-keyed mappings of scalars, with strings containing no characters
that need escaping.  A value outside the fragment is mapped to an encoding
failure (`Option.none`), which the callers' `try`/`except` treats like the
`TypeError` the real library raises on non-serializable values. -/

/-- JSON rendering of a scalar. -/
def jsonDumpScalar : PyVal → Option String
  | .none => some "null"
  | .bool true => some "true"
  | .bool false => some "false"
  | .int n => some (toString n)
  | .str s => some ("\"" ++ s ++ "\"")
  | _ => Option.none

/-- Model of `json.dumps(v, indent=4)` (what `json.dump(v, file, indent=4)`
writes). -/
def jsonDumps : PyVal → Option String
  | .pydict [] => some "\x7b\x7d"
  | .pydict m =>
      (m.mapM (fun kv => (jsonDumpScalar kv.2).map
          (fun sv => "    \"" ++ kv.1 ++ "\": " ++ sv))).map
        (fun parts => "\x7b\n" ++ String.intercalate ",\n" parts ++ "\n\x7d")
  | .pylist [] => some "[]"
  | .pylist xs =>
      (xs.mapM (fun v => (jsonDumpScalar v).map (fun sv => "    " ++ sv))).map
        (fun parts => "[\n" ++ String.intercalate ",\n" parts ++ "\n]")
  | v => jsonDumpScalar v

/-- Skip JSON whitespace. -/
def jsonSkipWs : List Char → List Char
  | c :: cs =>
      if c = ' ' || c = '\n' || c = '\t' || c = '\r' then jsonSkipWs cs
      else c :: cs
  | [] => []

/-- Read the body of a double-quoted string (no escape sequences in the
fragment), returning it together with the input after the closing quote. -/
def jsonTakeStr : List Char → Option (String × List Char)
  | [] => Option.none
  | c :: cs =>
      if c = '"' then some ("", cs)
      else
        match jsonTakeStr cs with
        | some (s, rest) => some (String.mk (c :: s.data), rest)
        | Option.none => Option.none

/-- Characters that end a bare JSON token. -/
def jsonIsDelim (c : Char) : Bool :=
  c = ',' || c = '}' || c = ']' || c = ' ' || c = '\n' || c = '\t' || c = '\r'

/-- Decimal digit value of a character. -/
def digitVal (c : Char) : Option Nat :=
  if '0' ≤ c ∧ c ≤ '9' then some (c.toNat - 48) else Option.none

/-- Accumulate decimal digits into a number; any non-digit fails. -/
def decDigitsAux : List Char → Nat → Option Nat
  | [], acc => some acc
  | c :: cs, acc =>
      match digitVal c with
      | some d => decDigitsAux cs (acc * 10 + d)
      | Option.none => Option.none

/-- Interpret a token as a decimal integer: an optional leading minus sign
followed by at least one digit. -/
def parseIntToken (cs : List Char) : Option Int :=
  match cs with
  | '-' :: rest =>
      if rest.isEmpty then Option.none
      else (decDigitsAux rest 0).map (fun n => -(n : Int))
  | _ =>
      if cs.isEmpty then Option.none
      else (decDigitsAux cs 0).map (fun n => (n : Int))

/-- Interpret a bare JSON token. -/
def jsonScalarOfToken (t : String) : Option PyVal :=
  if t = "null" then some .none
  else if t = "true" then some (.bool true)
  else if t = "false" then some (.bool false)
  else
    match parseIntToken t.data with
    | some n => some (.int n)
    | Option.none => Option.none

/-- Parse one scalar JSON value at the head of the input. -/
def jsonParseScalar (cs : List Char) : Option (PyVal × List Char) :=
  match cs with
  | '"' :: rest => (jsonTakeStr rest).map (fun sr => (PyVal.str sr.1, sr.2))
  | _ =>
      let tok := cs.takeWhile (fun c => !jsonIsDelim c)
      if tok.isEmpty then Option.none
      else (jsonScalarOfToken (String.mk tok)).map (fun v => (v, cs.drop tok.length))

/-- Parse the entries of a JSON object after the opening brace (fuelled). -/
def jsonParseEntries : Nat → List Char → Option (List (String × PyVal) × List Char)
  | 0, _ => Option.none
  | fuel + 1, cs =>
      match jsonSkipWs cs with
      | '"' :: rest =>
          match jsonTakeStr rest with
          | Option.none => Option.none
          | some (k, r1) =>
              match jsonSkipWs r1 with
              | ':' :: r2 =>
                  match jsonParseScalar (jsonSkipWs r2) with
                  | Option.none => Option.none
                  | some (v, r3) =>
                      match jsonSkipWs r3 with
                      | ',' :: r4 =>
                          match jsonParseEntries fuel r4 with
                          | some (es, r5) => some ((k, v) :: es, r5)
                          | Option.none => Option.none
                      | '}' :: r4 => some ([(k, v)], r4)
                      | _ => Option.none
              | _ => Option.none
      | _ => Option.none

/-- Parse the items of a JSON array after the opening bracket (fuelled). -/
def jsonParseItems : Nat → List Char → Option (List PyVal × List Char)
  | 0, _ => Option.none
  | fuel + 1, cs =>
      match jsonParseScalar (jsonSkipWs cs) with
      | Option.none => Option.none
      | some (v, r1) =>
          match jsonSkipWs r1 with
          | ',' :: r2 =>
              match jsonParseItems fuel r2 with
              | some (vs, r3) => some (v :: vs, r3)
              | Option.none => Option.none
          | ']' :: r2 => some ([v], r2)
          | _ => Option.none

/-- Parse a whole JSON document. -/
def jsonParseTop (cs : List Char) : Option PyVal :=
  match jsonSkipWs cs with
  | '{' :: rest =>
      match jsonSkipWs rest with
      | '}' :: r2 => if (jsonSkipWs r2).isEmpty then some (.pydict []) else Option.none
      | _ =>
          match jsonParseEntries (rest.length + 1) rest with
          | some (es, r2) => if (jsonSkipWs r2).isEmpty then some (.pydict es) else Option.none
          | Option.none => Option.none
  | '[' :: rest =>
      match jsonSkipWs rest with
      | ']' :: r2 => if (jsonSkipWs r2).isEmpty then some (.pylist []) else Option.none
      | _ =>
          match jsonParseItems (rest.length + 1) rest with
          | some (vs, r2) => if (jsonSkipWs r2).isEmpty then some (.pylist vs) else Option.none
          | Option.none => Option.none
  | rest =>
      match jsonParseScalar rest with
      | some (v, r) => if (jsonSkipWs r).isEmpty then some v else Option.none
      | Option.none => Option.none

/-- Model of `json.loads` / `json.load`; a malformed document raises
`json.JSONDecodeError`. -/
def jsonLoads (s : String) : Except PyErr PyVal :=
  match jsonParseTop s.data with
  | some v => .ok v
  | Option.none => .error (.decodeError "Expecting value")

/-! ## Model of the external `yaml` library

`yaml.dump(v, default_flow_style=False, indent=4)` and `yaml.safe_load(s)`
on the same fragment: plain scalars, flat block sequences and flat block
mappings. -/

/-- Plain-style YAML rendering of a scalar. -/
def yamlDumpScalar : PyVal → Option String
  | .none => some "null"
  | .bool true => some "true"
  | .bool false => some "false"
  | .int n => some (toString n)
  | .str s => some s
  | _ => Option.none

/-- Model of `yaml.dump(v, file, default_flow_style=False, indent=4)`. -/
def yamlDump : PyVal → Option String
  | .pydict [] => some "\x7b\x7d\n"
  | .pydict m =>
      (m.mapM (fun kv => (yamlDumpScalar kv.2).map
          (fun sv => kv.1 ++ ": " ++ sv ++ "\n"))).map (String.intercalate "")
  | .pylist [] => some "[]\n"
  | .pylist xs =>
      (xs.mapM (fun v => (yamlDumpScalar v).map (fun sv => "- " ++ sv ++ "\n"))).map
        (String.intercalate "")
  | v => (yamlDumpScalar v).map (fun sv => sv ++ "\n")

/-- Whitespace for the purposes of Python's `str.strip()`. -/
def isSpaceCh (c : Char) : Bool :=
  c = ' ' || c = '\n' || c = '\t' || c = '\r'

/-- Drop leading whitespace. -/
def dropLeadingWs : List Char → List Char
  | c :: cs => if isSpaceCh c then dropLeadingWs cs else c :: cs
  | [] => []

/-- Model of Python's `str.strip()`. -/
def pyStrip (s : String) : String :=
  String.mk ((dropLeadingWs (dropLeadingWs s.data).reverse).reverse)

/-- YAML plain-scalar interpretation of a token. -/
def yamlScalarOfToken (t : String) : PyVal :=
  if t = "null" || t = "~" then .none
  else if t = "true" then .bool true
  else if t = "false" then .bool false
  else
    match parseIntToken t.data with
    | some n => .int n
    | Option.none => .str t

/-- Split a character stream into lines at newline characters. -/
def splitLines : List Char → List (List Char)
  | [] => [[]]
  | c :: cs =>
      if c = '\n' then [] :: splitLines cs
      else
        match splitLines cs with
        | l :: ls => (c :: l) :: ls
        | [] => [[c]]

/-- Whether a line contains the `": "` separator. -/
def hasColonSpace : List Char → Bool
  | ':' :: ' ' :: _ => true
  | _ :: cs => hasColonSpace cs
  | [] => false

/-- Split a block-mapping line at its unique `": "` separator; a second
separator in the value is a YAML syntax error in the modelled fragment. -/
def yamlSplitEntry : List Char → Option (List Char × List Char)
  | [] => Option.none
  | ':' :: ' ' :: rest => if hasColonSpace rest then Option.none else some ([], rest)
  | c :: cs =>
      match yamlSplitEntry cs with
      | some kv => some (c :: kv.1, kv.2)
      | Option.none => Option.none

/-- Parse one `key: value` line of a block mapping. -/
def yamlParseEntry (l : List Char) : Option (String × PyVal) :=
  match yamlSplitEntry l with
  | some kv => some (String.mk kv.1, yamlScalarOfToken (String.mk kv.2))
  | Option.none => Option.none

/-- Strip the leading `"- "` of a block-sequence item. -/
def yamlSeqItem : List Char → Option (List Char)
  | '-' :: ' ' :: rest => some rest
  | _ => Option.none

/-- Model of `yaml.safe_load`; an empty document yields `None`. -/
def yamlSafeLoad (s : String) : Except PyErr PyVal :=
  let ls := (splitLines s.data).filter (fun l => !l.isEmpty)
  match ls with
  | [] => .ok .none
  | _ =>
      match ls.mapM yamlParseEntry with
      | some es => .ok (.pydict es)
      | Option.none =>
          match ls.mapM yamlSeqItem with
          | some items => .ok (.pylist (items.map (fun l => yamlScalarOfToken (String.mk l))))
          | Option.none =>
              match ls with
              | [l] =>
                  if String.mk l = "\x7b\x7d" then .ok (.pydict [])
                  else if String.mk l = "[]" then .ok (.pylist [])
                  else .ok (yamlScalarOfToken (String.mk l))
              | _ => .error (.decodeError "could not find expected key")

/-! ## `ConfigLoaderBase` and its two concrete variants

The loader classes from `src/pynamixel/config.py`, lines 99-167.  Note the
CPython name mangling: `check_path` (defined in `ConfigLoaderBase`) reads
and asserts on `self._ConfigLoaderBase__file_path`, while `load_config` in
each concrete class stores the resolved path under its own class's mangled
key (`_YamlConfigLoader__file_path` / `_JsonConfigLoader__file_path`). -/

/-- `ConfigLoaderBase.__init__`, run by both concrete classes (which define
no `__init__` of their own): `self.__file_path = None`. -/
def LoaderObj.init (k : LoaderKind) : LoaderObj :=
  ⟨k, [("_ConfigLoaderBase__file_path", PyVal.none)]⟩

/-- `ConfigLoaderBase.check_path` (lines 112-119).  With no argument it
asserts that `self._ConfigLoaderBase__file_path` is set and returns it;
with an argument it asserts the argument is a `str` or `Path` and returns
it.  It stores nothing. -/
def LoaderObj.check_path (self : LoaderObj) (file_path : PyVal) : Except PyErr PyVal :=
  match file_path with
  | .none =>
      match dget self.attrs "_ConfigLoaderBase__file_path" with
      | some v =>
          if v.isNone then .error (.assertionError "File path must be set")
          else .ok v
      | Option.none => .error (.attributeError "_ConfigLoaderBase__file_path")
  | fp =>
      if isStrOrPath fp then .ok fp
      else .error (.assertionError "File path must be str or path")

/-- `YamlConfigLoader.load_config` (lines 124-131).  The write
`self.__file_path = self.check_path(file_path)` lands on the
`_YamlConfigLoader__file_path` key. -/
def YamlConfigLoader.load_config (fs : FS) (self : LoaderObj) (file_path : PyVal) :
    Except PyErr PyVal × LoaderObj :=
  match self.check_path file_path with
  | .error e => (.error e, self)
  | .ok p =>
      let self2 : LoaderObj := ⟨self.kind, dset self.attrs "_YamlConfigLoader__file_path" p⟩
      match pyPathStr p with
      | Option.none => (.error (.typeError "path should be a str or Path"), self2)
      | some ps =>
          if fs.pathExists ps then
            (yamlSafeLoad ((fs.read ps).getD ""), self2)
          else
            (.error (.fileNotFound ("File not found: " ++ ps)), self2)

/-- `YamlConfigLoader.save_config` (lines 133-143).  `check_path` runs
outside the `try`, so its assertion failures propagate; everything inside
the `try` is caught and converted into a `False` return. -/
def YamlConfigLoader.save_config (fs : FS) (self : LoaderObj) (config : PyVal)
    (file_path : PyVal) : Except PyErr Bool × FS :=
  match self.check_path file_path with
  | .error e => (.error e, fs)
  | .ok p =>
      match (match config with
             | .str s => yamlSafeLoad (pyStrip s)
             | c => .ok c) with
      | .error _ => (.ok false, fs)
      | .ok c =>
          match pyPathStr p with
          | Option.none => (.ok false, fs)
          | some ps =>
              if fs.failWrites.contains ps then (.ok false, fs)
              else
                match yamlDump c with
                | Option.none =>
                    -- `open(_path, "w")` already truncated the file when
                    -- `yaml.dump` raises.
                    (.ok false, { fs with files := dset fs.files ps "" })
                | some text => (.ok true, { fs with files := dset fs.files ps text })

/-- `JsonConfigLoader.load_config` (lines 148-155); the stored path lands
on the `_JsonConfigLoader__file_path` key. -/
def JsonConfigLoader.load_config (fs : FS) (self : LoaderObj) (file_path : PyVal) :
    Except PyErr PyVal × LoaderObj :=
  match self.check_path file_path with
  | .error e => (.error e, self)
  | .ok p =>
      let self2 : LoaderObj := ⟨self.kind, dset self.attrs "_JsonConfigLoader__file_path" p⟩
      match pyPathStr p with
      | Option.none => (.error (.typeError "path should be a str or Path"), self2)
      | some ps =>
          if fs.pathExists ps then
            (jsonLoads ((fs.read ps).getD ""), self2)
          else
            (.error (.fileNotFound ("File not found: " ++ ps)), self2)

/-- `JsonConfigLoader.save_config` (lines 157-167). -/
def JsonConfigLoader.save_config (fs : FS) (self : LoaderObj) (config : PyVal)
    (file_path : PyVal) : Except PyErr Bool × FS :=
  match self.check_path file_path with
  | .error e => (.error e, fs)
  | .ok p =>
      match (match config with
             | .str s => jsonLoads (pyStrip s)
             | c => .ok c) with
      | .error _ => (.ok false, fs)
      | .ok c =>
          match pyPathStr p with
          | Option.none => (.ok false, fs)
          | some ps =>
              if fs.failWrites.contains ps then (.ok false, fs)
              else
                match jsonDumps c with
                | Option.none => (.ok false, { fs with files := dset fs.files ps "" })
                | some text => (.ok true, { fs with files := dset fs.files ps text })

/-- Dynamic dispatch of `load_config` on the loader's concrete class. -/
def runLoad (fs : FS) (l : LoaderObj) (fp : PyVal) :
    Except PyErr PyVal × LoaderObj :=
  match l.kind with
  | .yaml => YamlConfigLoader.load_config fs l fp
  | .json => JsonConfigLoader.load_config fs l fp

/-- Dynamic dispatch of `save_config` on the loader's concrete class. -/
def runSave (fs : FS) (l : LoaderObj) (config fp : PyVal) :
    Except PyErr Bool × FS :=
  match l.kind with
  | .yaml => YamlConfigLoader.save_config fs l config fp
  | .json => JsonConfigLoader.save_config fs l config fp

/-- Spec-side success predicate for the YAML variant's encode, following
the spec's words: the `try` block of `save_config` raises no exception —
a string payload decodes under the same format's parser, the resolved
path is path-like and opens for writing, and the value serializes.
`save_config` is proved to return exactly this boolean. -/
def yamlEncodeOk (fs : FS) (config p : PyVal) : Bool :=
  match (match config with
         | .str s => yamlSafeLoad (pyStrip s)
         | c => Except.ok c) with
  | .error _ => false
  | .ok c =>
      match pyPathStr p with
      | Option.none => false
      | some ps =>
          if fs.failWrites.contains ps then false
          else
            match yamlDump c with
            | Option.none => false
            | some _ => true

/-- Spec-side success predicate for the JSON variant's encode (same shape
as `yamlEncodeOk`, with the JSON parser and serializer). -/
def jsonEncodeOk (fs : FS) (config p : PyVal) : Bool :=
  match (match config with
         | .str s => jsonLoads (pyStrip s)
         | c => Except.ok c) with
  | .error _ => false
  | .ok c =>
      match pyPathStr p with
      | Option.none => false
      | some ps =>
          if fs.failWrites.contains ps then false
          else
            match jsonDumps c with
            | Option.none => false
            | some _ => true

/-- `a is None` for an attribute value. -/
def Attr.isNone : Attr → Bool
  | .val .none => true
  | _ => false

/-! ## `ConfigManager` (lines 10-96)

A `ConfigManager` is its instance `__dict__`.  Attribute writes always go
through the class's `__setattr__`; attribute reads consult the class's
data descriptors (the three `@property` members) first, then the instance
dictionary, then the class's plain methods, and only then fall back to
`__getattr__`. -/

structure ConfigManager where
  attrs : List (String × Attr)

namespace ConfigManager

/-- A raw write into the instance dictionary. -/
def rawWrite (cm : ConfigManager) (name : String) (value : Attr) : ConfigManager :=
  ⟨dset cm.attrs name value⟩

/-- The test `self.__dict__.get("__config") is None` from `__setattr__`
(line 69).  The string literal `"__config"` is not subject to name
mangling, while the private attributes created by the class live under
`_ConfigManager`-prefixed mangled keys, so no code path of the repository
ever creates a key literally named `"__config"`: in every state reachable
through the public API this test is `true`. -/
def guardConfigIsNone (cm : ConfigManager) : Bool :=
  match dget cm.attrs "__config" with
  | Option.none => true
  | some (.val .none) => true
  | some _ => false

/-- `__setattr__` (lines 68-72) specialised to a `name` that is not a data
descriptor of the class, so that `super().__setattr__(name, value)` is a
plain instance-dictionary write.  This is the form taken by every
assignment to a mangled private name inside the class body (the property
setters below). -/
def setattrPlain (cm : ConfigManager) (name : String) (value : Attr) :
    Except PyErr ConfigManager :=
  if cm.guardConfigIsNone then .ok (cm.rawWrite name value)
  else
    match dget cm.attrs "_ConfigManager__config_data" with
    | some (.val (.pydict m)) =>
        if (dget m name).isNone then .ok (cm.rawWrite name value)
        else
          match value with
          | .val v =>
              .ok (cm.rawWrite "_ConfigManager__config_data" (.val (.pydict (dset m name v))))
          | .loaderA _ =>
              -- a loader object stored as a mapping value lies outside the
              -- value domain of `PyVal`; reaching here needs an attribute
              -- literally named `"__config"` *and* a loader assigned to an
              -- attribute whose name is a key of the mapping, which no
              -- reachable state produces
              .ok (cm.rawWrite name value)
    | some _ => .error (.typeError "argument of type is not iterable")
    | Option.none =>
        -- reading the absent mapping would recurse through `__getattr__`
        -- without terminating (`RecursionError`); unreachable, since
        -- `__init__` creates the mapping before anything else
        .error (.attributeError "_ConfigManager__config_data")

/-- The `formatTag` computation in the `config_loader` setter (line 49):
`loader.__class__.__name__.lower().replace("configloader", "")`. -/
def loaderTag : LoaderKind → String
  | .yaml => "yaml"
  | .json => "json"

/-- The `config_loader` property setter (lines 43-50): rejects `None` and
non-loader values with `ValueError`, then records the format tag and the
loader. -/
def configLoaderSetter (cm : ConfigManager) (value : Attr) : Except PyErr ConfigManager :=
  match value with
  | .val .none => .error (.valueError "Loader must contain a value")
  | .val _ =>
      .error (.valueError "Loader must be an instance of < class ConfigLoaderBase > or its subclasses")
  | .loaderA l => do
      let cm ← cm.setattrPlain "_ConfigManager__config_file_type" (.val (.str (loaderTag l.kind)))
      cm.setattrPlain "_ConfigManager__config_loader" (.loaderA l)

/-- The `config_file_path` property setter (lines 60-66): rejects `None`
and values that are neither `str` nor `Path` with `ValueError`. -/
def configFilePathSetter (cm : ConfigManager) (value : Attr) : Except PyErr ConfigManager :=
  match value with
  | .val .none => .error (.valueError "File path must contain a value")
  | .val v =>
      if isStrOrPath v then cm.setattrPlain "_ConfigManager__config_file_path" (.val v)
      else .error (.valueError "File path must be str or path")
  | .loaderA _ => .error (.valueError "File path must be str or path")

/-- `object.__setattr__`: honours the class's data descriptors — the
`config_loader` and `config_file_path` property setters, and the read-only
`config_data` property — and otherwise writes to the instance
dictionary. -/
def objectSetattr (cm : ConfigManager) (name : String) (value : Attr) :
    Except PyErr ConfigManager :=
  if name = "config_loader" then cm.configLoaderSetter value
  else if name = "config_file_path" then cm.configFilePathSetter value
  else if name = "config_data" then .error (.attributeError "cannot set attribute")
  else .ok (cm.rawWrite name value)

/-- `ConfigManager.__setattr__` (lines 68-72): route the write into the
config mapping only when `self.__dict__.get("__config")` is non-`None`
*and* `name` is already a key of the mapping; otherwise defer to
`super().__setattr__`. -/
def setattr (cm : ConfigManager) (name : String) (value : Attr) :
    Except PyErr ConfigManager :=
  if cm.guardConfigIsNone then cm.objectSetattr name value
  else
    match dget cm.attrs "_ConfigManager__config_data" with
    | some (.val (.pydict m)) =>
        if (dget m name).isNone then cm.objectSetattr name value
        else
          match value with
          | .val v =>
              .ok (cm.rawWrite "_ConfigManager__config_data" (.val (.pydict (dset m name v))))
          | .loaderA _ => cm.objectSetattr name value
    | some _ => .error (.typeError "argument of type is not iterable")
    | Option.none => .error (.attributeError "_ConfigManager__config_data")

/-- `ConfigManager.__getattr__` (lines 74-78): called only after normal
lookup fails; consults the config mapping, and otherwise evaluates
`super().__getattr__(name)`, which raises `AttributeError` because
`object` defines no `__getattr__`. -/
def dunderGetattr (cm : ConfigManager) (name : String) : Except PyErr Attr :=
  match dget cm.attrs "_ConfigManager__config_data" with
  | some (.val (.pydict m)) =>
      match dget m name with
      | some v => .ok (.val v)
      | Option.none => .error (.attributeError "super object has no attribute __getattr__")
  | some _ => .error (.typeError "argument of type is not iterable")
  | Option.none => .error (.attributeError "_ConfigManager__config_data")

/-- Attribute read of a name that is not a member of the class (in
particular, all the mangled private names): instance dictionary first,
then `__getattr__`. -/
def rawGet (cm : ConfigManager) (name : String) : Except PyErr Attr :=
  match dget cm.attrs name with
  | some a => .ok a
  | Option.none => cm.dunderGetattr name

/-- The class's `@property` members (data descriptors, which take
precedence over the instance dictionary). -/
def properties : List String :=
  ["config_loader", "config_data", "config_file_path"]

/-- The class's plain methods (non-data descriptors: an instance attribute
of the same name shadows them).  Members inherited from `object` are
omitted; nothing here touches them. -/
def methods : List String :=
  ["__init__", "_ConfigManager__load_config_file", "load_config_from_file",
   "save_config_to_file", "to_dict", "__setattr__", "__getattr__",
   "__getitem__", "__setitem__", "__contains__", "__iter__", "__len__"]

/-- Result of an attribute read: a stored value, or a bound method. -/
inductive GetResult where
  | attr (a : Attr)
  | method (name : String)

/-- The mangled instance slot each property getter returns. -/
def propertySlot : String → String
  | "config_loader" => "_ConfigManager__config_loader"
  | "config_file_path" => "_ConfigManager__config_file_path"
  | _ => "_ConfigManager__config_data"

/-- Full attribute lookup `getattr(store, name)`: data descriptors, then
the instance dictionary, then plain methods, then `__getattr__`. -/
def getattrFull (cm : ConfigManager) (name : String) : Except PyErr GetResult :=
  if name ∈ properties then (cm.rawGet (propertySlot name)).map .attr
  else
    match dget cm.attrs name with
    | some a => .ok (.attr a)
    | Option.none =>
        if name ∈ methods then .ok (.method name)
        else (cm.dunderGetattr name).map .attr

/-- `ConfigManager.__init__` (lines 11-16).  Every field assignment goes
through `__setattr__`; the instance dictionary never holds a `"__config"`
key, so each one is a plain write.  The `file_path` and `config_loader_`
arguments are stored verbatim, with no validation of any kind. -/
def init (file_path : Attr) (config_loader_ : Attr) : Except PyErr ConfigManager := do
  let cm : ConfigManager := ⟨[]⟩
  let cm ← cm.setattr "_ConfigManager__config_data" (.val (.pydict []))
  let cm ← cm.setattr "is_config_initialized" (.val (.bool false))
  let cm ← cm.setattr "_ConfigManager__config_file_type" (.val .none)
  let cm ← cm.setattr "_ConfigManager__config_file_path" file_path
  cm.setattr "_ConfigManager__config_loader" config_loader_

/-- `__getitem__` (lines 80-81): `self.__config_data[key]`. -/
def getitem (cm : ConfigManager) (key : String) : Except PyErr PyVal := do
  match ← cm.rawGet "_ConfigManager__config_data" with
  | .val (.pydict m) =>
      match dget m key with
      | some v => .ok v
      | Option.none => .error (.keyError key)
  | _ => .error (.typeError "object is not subscriptable")

/-- `__setitem__` (lines 83-84): `self.__config_data[key] = value` mutates
the mapping in place. -/
def setitem (cm : ConfigManager) (key : String) (value : PyVal) :
    Except PyErr ConfigManager := do
  match ← cm.rawGet "_ConfigManager__config_data" with
  | .val (.pydict m) =>
      .ok (cm.rawWrite "_ConfigManager__config_data" (.val (.pydict (dset m key value))))
  | _ => .error (.typeError "object does not support item assignment")

/-- `__load_config_file` (lines 18-26): delegate to the loader, reject a
non-mapping or empty result with `ValueError`, and only then overwrite the
mapping and raise the initialization flag. -/
def loadConfigFile (fs : FS) (cm : ConfigManager) : Except PyErr Unit × ConfigManager :=
  match cm.rawGet "_ConfigManager__config_loader" with
  | .error e => (.error e, cm)
  | .ok (.val _) => (.error (.attributeError "load_config"), cm)
  | .ok (.loaderA l) =>
      match cm.rawGet "_ConfigManager__config_file_path" with
      | .error e => (.error e, cm)
      | .ok (.loaderA _) => (.error (.typeError "path should be a str or Path"), cm)
      | .ok (.val fp) =>
          let res := runLoad fs l fp
          -- the loader object mutates in place; the manager keeps holding it
          let cm2 := cm.rawWrite "_ConfigManager__config_loader" (.loaderA res.2)
          match res.1 with
          | .error e => (.error e, cm2)
          | .ok v =>
              match v with
              | .pydict m =>
                  if m.isEmpty then
                    (.error (.valueError "Loaded config data is empty"), cm2)
                  else
                    match cm2.setattr "_ConfigManager__config_data" (.val (.pydict m)) with
                    | .error e => (.error e, cm2)
                    | .ok cm3 =>
                        match cm3.setattr "is_config_initialized" (.val (.bool true)) with
                        | .error e => (.error e, cm3)
                        | .ok cm4 => (.ok (), cm4)
              | _ => (.error (.valueError "Loaded config data must be a dictionary"), cm2)

/-- `load_config_from_file` (lines 28-31): assign the effective path and
loader through the validating property setters (`x or y` uses Python
truthiness and only evaluates the remembered value when the argument is
falsy), then run the private load. -/
def load_config_from_file (fs : FS) (cm : ConfigManager) (loader : Attr)
    (file_path : Attr) : Except PyErr Unit × ConfigManager :=
  let rhsPath : Except PyErr Attr :=
    if attrTruthy file_path then .ok file_path
    else cm.rawGet "_ConfigManager__config_file_path"
  match rhsPath with
  | .error e => (.error e, cm)
  | .ok rp =>
      match cm.setattr "config_file_path" rp with
      | .error e => (.error e, cm)
      | .ok cm1 =>
          let rhsLoader : Except PyErr Attr :=
            if attrTruthy loader then .ok loader
            else cm1.rawGet "_ConfigManager__config_loader"
          match rhsLoader with
          | .error e => (.error e, cm1)
          | .ok rl =>
              match cm1.setattr "config_loader" rl with
              | .error e => (.error e, cm1)
              | .ok cm2 => cm2.loadConfigFile fs

/-- `save_config_to_file` (lines 33-37).  The Python function body has no
`return` statement: the boolean result of the loader's `save_config` is
discarded and the function returns `None`. -/
def save_config_to_file (fs : FS) (cm : ConfigManager) (file_path : Attr) :
    Except PyErr PyVal × ConfigManager × FS :=
  let rhsPath : Except PyErr Attr :=
    if attrTruthy file_path then .ok file_path
    else cm.rawGet "_ConfigManager__config_file_path"
  match rhsPath with
  | .error e => (.error e, cm, fs)
  | .ok rp =>
      match cm.setattr "config_file_path" rp with
      | .error e => (.error e, cm, fs)
      | .ok cm1 =>
          -- assert self.config_loader is not None
          match cm1.rawGet "_ConfigManager__config_loader" with
          | .error e => (.error e, cm1, fs)
          | .ok a =>
              if a.isNone then
                (.error (.assertionError "The config loader must be set."), cm1, fs)
              else
                match a with
                | .val _ => (.error (.attributeError "save_config"), cm1, fs)
                | .loaderA l =>
                    match cm1.rawGet "_ConfigManager__config_data" with
                    | .error e => (.error e, cm1, fs)
                    | .ok (.loaderA _) => (.error (.typeError "not serializable"), cm1, fs)
                    | .ok (.val dataV) =>
                        match cm1.rawGet "_ConfigManager__config_file_path" with
                        | .error e => (.error e, cm1, fs)
                        | .ok (.loaderA _) =>
                            (.error (.typeError "path should be a str or Path"), cm1, fs)
                        | .ok (.val fpV) =>
                            let res := runSave fs l dataV fpV
                            match res.1 with
                            | .error e => (.error e, cm1, res.2)
                            | .ok _ => (.ok PyVal.none, cm1, res.2)

end ConfigManager

/-- The instance dictionary `ConfigManager.__init__` produces: the five
fields in assignment order, the last two holding the constructor arguments
verbatim. -/
def initAttrs (file_path config_loader_ : Attr) : List (String × Attr) :=
  [("_ConfigManager__config_data", .val (.pydict [])),
   ("is_config_initialized", .val (.bool false)),
   ("_ConfigManager__config_file_type", .val .none),
   ("_ConfigManager__config_file_path", file_path),
   ("_ConfigManager__config_loader", config_loader_)]

/-- The store built by `ConfigManager("config.json", JsonConfigLoader())`
followed by `store["key"] = "value"` (see `sampleJsonStore_reachable`). -/
def sampleJsonStore : ConfigManager :=
  ⟨[("_ConfigManager__config_data", .val (.pydict [("key", .str "value")])),
    ("is_config_initialized", .val (.bool false)),
    ("_ConfigManager__config_file_type", .val .none),
    ("_ConfigManager__config_file_path", .val (.str "config.json")),
    ("_ConfigManager__config_loader", .loaderA (LoaderObj.init .json))]⟩

/-- A filesystem holding the JSON document `{"key": "value"}` at
`config.json`, as in the repository's tests. -/
def fsWithJson : FS := ⟨[("config.json", "\x7b\"key\": \"value\"\x7d")], []⟩

/-- A filesystem holding the YAML document `key: value` at `config.yaml`,
as in the repository's tests. -/
def fsWithYaml : FS := ⟨[("config.yaml", "key: value\n")], []⟩

/-! ## Supporting lemmas -/

@[simp] theorem dget_nil {α : Type} (k : String) :
    dget ([] : List (String × α)) k = Option.none := rfl

@[simp] theorem dget_cons {α : Type} (k2 k : String) (v : α)
    (rest : List (String × α)) :
    dget ((k2, v) :: rest) k = if k2 = k then some v else dget rest k := rfl

@[simp] theorem dset_nil {α : Type} (k : String) (v : α) :
    dset ([] : List (String × α)) k v = [(k, v)] := rfl

@[simp] theorem dset_cons {α : Type} (k2 k : String) (v2 v : α)
    (rest : List (String × α)) :
    dset ((k2, v2) :: rest) k v =
      if k2 = k then (k2, v) :: rest else (k2, v2) :: dset rest k v := rfl

theorem dget_dset_self {α : Type} (m : List (String × α)) (k : String) (v : α) :
    dget (dset m k v) k = some v := by
  induction m with
  | nil => simp [dget, dset]
  | cons hd tl ih =>
    obtain ⟨k2, v2⟩ := hd
    by_cases h : k2 = k <;> simp [dget, dset, h, ih]

theorem dget_dset_ne {α : Type} (m : List (String × α)) (k k2 : String) (v : α)
    (h : k2 ≠ k) : dget (dset m k v) k2 = dget m k2 := by
  induction m with
  | nil => simp [dget, dset, Ne.symm h]
  | cons hd tl ih =>
    obtain ⟨k3, v3⟩ := hd
    by_cases h3 : k3 = k
    · subst h3
      simp [dget, dset, Ne.symm h]
    · simp [dget, dset, h3, ih]

theorem init_eq (fp l : Attr) :
    ConfigManager.init fp l = .ok ⟨initAttrs fp l⟩ := rfl

theorem sampleJsonStore_reachable :
    (do
      let cm ← ConfigManager.init (.val (.str "config.json")) (.loaderA (LoaderObj.init .json))
      cm.setitem "key" (.str "value")) = .ok sampleJsonStore := rfl

theorem guard_of_dget_none (cm : ConfigManager)
    (h0 : dget cm.attrs "__config" = Option.none) :
    cm.guardConfigIsNone = true := by
  unfold ConfigManager.guardConfigIsNone
  rw [h0]

theorem rawGet_of_dget (cm : ConfigManager) (n : String) (a : Attr)
    (h : dget cm.attrs n = some a) : cm.rawGet n = .ok a := by
  unfold ConfigManager.rawGet
  rw [h]

theorem dget_rawWrite_ne (cm : ConfigManager) (n n2 : String) (v : Attr)
    (h : n2 ≠ n) : dget (cm.rawWrite n v).attrs n2 = dget cm.attrs n2 := by
  unfold ConfigManager.rawWrite
  exact dget_dset_ne cm.attrs n n2 v h

theorem dget_rawWrite_self (cm : ConfigManager) (n : String) (v : Attr) :
    dget (cm.rawWrite n v).attrs n = some v := by
  unfold ConfigManager.rawWrite
  exact dget_dset_self cm.attrs n v

/-- `__setattr__` on a name that is not one of the three property names
reduces to a raw instance-dictionary write whenever the `"__config"` guard
key is absent. -/
theorem setattr_plain_name (cm : ConfigManager) (n : String) (v : Attr)
    (h0 : dget cm.attrs "__config" = Option.none)
    (h1 : n ≠ "config_loader") (h2 : n ≠ "config_file_path")
    (h3 : n ≠ "config_data") :
    cm.setattr n v = .ok (cm.rawWrite n v) := by
  unfold ConfigManager.setattr ConfigManager.objectSetattr
  simp [guard_of_dget_none cm h0, h1, h2, h3]

/-- Assigning a `str`/`Path` value to `config_file_path` runs the property
setter and stores the value in the mangled slot. -/
theorem setattr_path_setter (cm : ConfigManager) (v : PyVal)
    (h0 : dget cm.attrs "__config" = Option.none)
    (hv : isStrOrPath v = true) :
    cm.setattr "config_file_path" (.val v) =
      .ok (cm.rawWrite "_ConfigManager__config_file_path" (.val v)) := by
  cases v <;>
    simp_all [ConfigManager.setattr, ConfigManager.objectSetattr,
      ConfigManager.configFilePathSetter, ConfigManager.setattrPlain,
      guard_of_dget_none cm h0, isStrOrPath]

/-- Assigning a loader object to `config_loader` runs the property setter,
which stores the format tag and then the loader. -/
theorem setattr_loader_setter (cm : ConfigManager) (l : LoaderObj)
    (h0 : dget cm.attrs "__config" = Option.none) :
    cm.setattr "config_loader" (.loaderA l) =
      .ok ((cm.rawWrite "_ConfigManager__config_file_type"
              (.val (.str (ConfigManager.loaderTag l.kind)))).rawWrite
            "_ConfigManager__config_loader" (.loaderA l)) := by
  have h0b : dget (cm.rawWrite "_ConfigManager__config_file_type"
      (.val (.str (ConfigManager.loaderTag l.kind)))).attrs "__config" =
      Option.none := by
    rw [dget_rawWrite_ne cm _ _ _ (by decide)]
    exact h0
  simp [ConfigManager.setattr, ConfigManager.objectSetattr,
    ConfigManager.configLoaderSetter, ConfigManager.setattrPlain,
    guard_of_dget_none cm h0, guard_of_dget_none _ h0b, Bind.bind, Except.bind]

theorem yaml_load_config_kind (fs : FS) (l : LoaderObj) (fp : PyVal) :
    (YamlConfigLoader.load_config fs l fp).2.kind = l.kind := by
  unfold YamlConfigLoader.load_config
  split
  · rfl
  · split
    · rfl
    · split <;> rfl

theorem json_load_config_kind (fs : FS) (l : LoaderObj) (fp : PyVal) :
    (JsonConfigLoader.load_config fs l fp).2.kind = l.kind := by
  unfold JsonConfigLoader.load_config
  split
  · rfl
  · split
    · rfl
    · split <;> rfl

theorem runLoad_kind (fs : FS) (l : LoaderObj) (fp : PyVal) :
    (runLoad fs l fp).2.kind = l.kind := by
  unfold runLoad
  cases hk : l.kind
  · exact (yaml_load_config_kind fs l fp).trans hk
  · exact (json_load_config_kind fs l fp).trans hk

/-- A failed private load leaves the mapping, the flag, the path slot and
the format tag untouched; the loader slot keeps holding a loader of the
same concrete class (the loader object is mutated in place by its
`load_config`). -/
theorem loadConfigFile_error_frame (fs : FS) (cm cmE : ConfigManager)
    (l : LoaderObj) (e : PyErr)
    (h0 : dget cm.attrs "__config" = Option.none)
    (hl : dget cm.attrs "_ConfigManager__config_loader" = some (.loaderA l))
    (hrun : cm.loadConfigFile fs = (.error e, cmE)) :
    dget cmE.attrs "_ConfigManager__config_data" =
      dget cm.attrs "_ConfigManager__config_data" ∧
    dget cmE.attrs "is_config_initialized" =
      dget cm.attrs "is_config_initialized" ∧
    dget cmE.attrs "_ConfigManager__config_file_path" =
      dget cm.attrs "_ConfigManager__config_file_path" ∧
    dget cmE.attrs "_ConfigManager__config_file_type" =
      dget cm.attrs "_ConfigManager__config_file_type" ∧
    ∃ l2, dget cmE.attrs "_ConfigManager__config_loader" = some (.loaderA l2) ∧
      l2.kind = l.kind := by
  unfold ConfigManager.loadConfigFile at hrun
  cases hRp : cm.rawGet "_ConfigManager__config_file_path" with
  | error e2 =>
      simp only [rawGet_of_dget cm _ _ hl, hRp, Prod.mk.injEq] at hrun
      obtain ⟨-, hcm⟩ := hrun
      subst hcm
      exact ⟨rfl, rfl, rfl, rfl, l, hl, rfl⟩
  | ok a =>
      cases a with
      | loaderA l3 =>
          simp only [rawGet_of_dget cm _ _ hl, hRp, Prod.mk.injEq] at hrun
          obtain ⟨-, hcm⟩ := hrun
          subst hcm
          exact ⟨rfl, rfl, rfl, rfl, l, hl, rfl⟩
      | val fp =>
          simp only [rawGet_of_dget cm _ _ hl, hRp] at hrun
          generalize hres : runLoad fs l fp = res at hrun
          have hkind : res.2.kind = l.kind := by
            rw [← hres]; exact runLoad_kind fs l fp
          obtain ⟨r, l2⟩ := res
          have h0cm2 : dget (cm.rawWrite "_ConfigManager__config_loader"
              (Attr.loaderA l2)).attrs "__config" = Option.none := by
            rw [dget_rawWrite_ne _ _ _ _ (by decide)]; exact h0
          cases r with
          | error e3 =>
              simp only [Prod.mk.injEq] at hrun
              obtain ⟨-, hcm⟩ := hrun
              subst hcm
              refine ⟨?_, ?_, ?_, ?_, ⟨l2, ?_, hkind⟩⟩
              · exact dget_rawWrite_ne _ _ _ _ (by decide)
              · exact dget_rawWrite_ne _ _ _ _ (by decide)
              · exact dget_rawWrite_ne _ _ _ _ (by decide)
              · exact dget_rawWrite_ne _ _ _ _ (by decide)
              · exact dget_rawWrite_self _ _ _
          | ok v =>
              cases v
              case pydict m =>
                cases m with
                | nil =>
                    simp only [List.isEmpty_nil, if_true, Prod.mk.injEq] at hrun
                    obtain ⟨-, hcm⟩ := hrun
                    subst hcm
                    refine ⟨?_, ?_, ?_, ?_, ⟨l2, ?_, hkind⟩⟩
                    · exact dget_rawWrite_ne _ _ _ _ (by decide)
                    · exact dget_rawWrite_ne _ _ _ _ (by decide)
                    · exact dget_rawWrite_ne _ _ _ _ (by decide)
                    · exact dget_rawWrite_ne _ _ _ _ (by decide)
                    · exact dget_rawWrite_self _ _ _
                | cons e0 es =>
                    have hsd := setattr_plain_name
                      (cm.rawWrite "_ConfigManager__config_loader" (Attr.loaderA l2))
                      "_ConfigManager__config_data"
                      (Attr.val (PyVal.pydict (e0 :: es))) h0cm2
                      (by decide) (by decide) (by decide)
                    have h0cm3 : dget ((cm.rawWrite "_ConfigManager__config_loader"
                        (Attr.loaderA l2)).rawWrite "_ConfigManager__config_data"
                        (Attr.val (PyVal.pydict (e0 :: es)))).attrs "__config" =
                        Option.none := by
                      rw [dget_rawWrite_ne _ _ _ _ (by decide)]; exact h0cm2
                    have hsi := setattr_plain_name
                      ((cm.rawWrite "_ConfigManager__config_loader"
                          (Attr.loaderA l2)).rawWrite "_ConfigManager__config_data"
                        (Attr.val (PyVal.pydict (e0 :: es))))
                      "is_config_initialized" (Attr.val (PyVal.bool true)) h0cm3
                      (by decide) (by decide) (by decide)
                    simp only [List.isEmpty_cons, Bool.false_eq_true, if_false,
                      hsd, hsi, Prod.mk.injEq] at hrun
                    exact absurd hrun.1 (by simp)
              all_goals
                simp only [Prod.mk.injEq] at hrun
              all_goals
                obtain ⟨-, hcm⟩ := hrun
              all_goals
                subst hcm
              all_goals
                refine ⟨dget_rawWrite_ne _ _ _ _ (by decide),
                  dget_rawWrite_ne _ _ _ _ (by decide),
                  dget_rawWrite_ne _ _ _ _ (by decide),
                  dget_rawWrite_ne _ _ _ _ (by decide),
                  ⟨l2, dget_rawWrite_self _ _ _, hkind⟩⟩

/-! ## Claims -/

/-- **C1** (code bug): for a `ConfigManager` whose mapping already contains
the key `"key"`, the attribute assignment `store.key = "new"` does *not*
update `data["key"]`: `__setattr__`'s test reads the literal dictionary key
`"__config"`, which name mangling guarantees is never created, so the
write always falls through to an ordinary object field, and the subsequent
keyed read still returns the old value. -/
theorem setattr_leaves_existing_config_key_unchanged :
    (do
      let cm ← ConfigManager.init (.val PyVal.none) (.val PyVal.none)
      let cm ← cm.setitem "key" (.str "old")
      let cm ← cm.setattr "key" (.val (.str "new"))
      let keyed ← cm.getitem "key"
      let field ← cm.rawGet "key"
      pure (keyed, field)) = .ok (PyVal.str "old", Attr.val (PyVal.str "new")) := rfl

/-- **C2** counterexample: after `store["is_config_initialized"] = "yes"`
the name is a key of the mapping, yet the attribute read returns the
declared `is_config_initialized` field (`False`) and not the mapping's
value — `__getattr__` is only a fallback, so a declared field shadows a
same-named config key, not the other way round. -/
theorem getattr_declared_field_shadows_config_key :
    (do
      let cm ← ConfigManager.init (.val PyVal.none) (.val PyVal.none)
      let cm ← cm.setitem "is_config_initialized" (.str "yes")
      cm.getattrFull "is_config_initialized") =
      .ok (.attr (.val (.bool false))) ∧
    (Except.ok (ConfigManager.GetResult.attr (.val (.bool false))) :
        Except PyErr ConfigManager.GetResult) ≠
      .ok (.attr (.val (.str "yes"))) := by
  refine ⟨rfl, ?_⟩
  simp

/-- **C2** (amended): for a name that is neither a property nor a method
of the class nor an instance attribute, an attribute read returns the
config mapping's value for that key when present — in particular a keyed
write `store[n] = v` is then visible as `store.n` — and raises
`AttributeError` when the key is absent too.  (When the name does resolve
normally, the declared member wins; see the counterexample.) -/
theorem getattr_falls_back_to_config_mapping (cm : ConfigManager) (n : String)
    (m : List (String × PyVal))
    (hprop : n ∉ ConfigManager.properties)
    (hmeth : n ∉ ConfigManager.methods)
    (hinst : dget cm.attrs n = Option.none)
    (hdata : dget cm.attrs "_ConfigManager__config_data" = some (.val (.pydict m))) :
    (∀ v, dget m n = some v → cm.getattrFull n = .ok (.attr (.val v))) ∧
    (dget m n = Option.none →
      cm.getattrFull n =
        .error (.attributeError "super object has no attribute __getattr__")) := by
  unfold ConfigManager.getattrFull ConfigManager.dunderGetattr
  constructor
  · intro v hv
    simp [hprop, hmeth, hinst, hdata, hv, Except.map]
  · intro hv
    simp [hprop, hmeth, hinst, hdata, hv, Except.map]

theorem getattr_falls_back_to_config_mapping_witness :
    ("key" ∉ ConfigManager.properties) ∧
    ("key" ∉ ConfigManager.methods) ∧
    dget sampleJsonStore.attrs "key" = Option.none ∧
    dget sampleJsonStore.attrs "_ConfigManager__config_data" =
      some (.val (.pydict [("key", .str "value")])) ∧
    ((∀ v, dget [("key", PyVal.str "value")] "key" = some v →
        sampleJsonStore.getattrFull "key" = .ok (.attr (.val v))) ∧
     (dget [("key", PyVal.str "value")] "key" = Option.none →
        sampleJsonStore.getattrFull "key" =
          .error (.attributeError "super object has no attribute __getattr__"))) :=
  ⟨by decide, by decide, rfl, rfl,
    getattr_falls_back_to_config_mapping sampleJsonStore "key" [("key", .str "value")]
      (by decide) (by decide) rfl rfl⟩

/-- **C7**: for a resolvable path that does not exist on the filesystem,
the `load_config` of both variants raises the same error kind,
`FileNotFoundError`, whose message lists the resolved path; nothing
catches it. -/
theorem load_config_missing_file_same_error (fs : FS) (l : LoaderObj) (fp p : PyVal)
    (ps : String)
    (hres : l.check_path fp = .ok p)
    (hps : pyPathStr p = some ps)
    (hex : fs.pathExists ps = false) :
    (YamlConfigLoader.load_config fs l fp).1 =
      .error (.fileNotFound ("File not found: " ++ ps)) ∧
    (JsonConfigLoader.load_config fs l fp).1 =
      .error (.fileNotFound ("File not found: " ++ ps)) := by
  unfold YamlConfigLoader.load_config JsonConfigLoader.load_config
  rw [hres]
  simp [hps, hex]

theorem load_config_missing_file_same_error_witness :
    (LoaderObj.init .json).check_path (.str "missing.json") = .ok (.str "missing.json") ∧
    pyPathStr (.str "missing.json") = some "missing.json" ∧
    FS.pathExists ⟨[], []⟩ "missing.json" = false ∧
    ((YamlConfigLoader.load_config ⟨[], []⟩ (LoaderObj.init .json) (.str "missing.json")).1 =
      .error (.fileNotFound ("File not found: " ++ "missing.json")) ∧
     (JsonConfigLoader.load_config ⟨[], []⟩ (LoaderObj.init .json) (.str "missing.json")).1 =
      .error (.fileNotFound ("File not found: " ++ "missing.json"))) :=
  ⟨rfl, rfl, rfl,
    load_config_missing_file_same_error ⟨[], []⟩ (LoaderObj.init .json)
      (.str "missing.json") (.str "missing.json") "missing.json" rfl rfl rfl⟩

/-- **C6**: with a resolvable path and a payload that is a mapping or a
raw-format string (a string is first decoded by the same format's parser),
the `save_config` of both variants returns exactly the boolean "the `try`
block raised no exception" (`yamlEncodeOk` / `jsonEncodeOk`): `True` on
success, `False` on any exception during parse or write, and it never
propagates an exception (`check_path` is the only statement outside the
`try`). -/
theorem save_config_returns_bool_never_raises (fs : FS) (l : LoaderObj)
    (config : PyVal) (fp p : PyVal)
    (hres : l.check_path fp = .ok p)
    (_hcfg : config.isDict = true ∨ ∃ s, config = .str s) :
    (YamlConfigLoader.save_config fs l config fp).1 =
      .ok (yamlEncodeOk fs config p) ∧
    (JsonConfigLoader.save_config fs l config fp).1 =
      .ok (jsonEncodeOk fs config p) := by
  constructor
  · cases config
    all_goals
      unfold YamlConfigLoader.save_config yamlEncodeOk
    all_goals
      split
      next e heq => rw [hres] at heq; exact Except.noConfusion heq
      next p2 heq =>
        have hp2 : p2 = p := by
          rw [hres] at heq
          exact (Except.ok.inj heq).symm
        subst hp2
        repeat' split
        all_goals simp_all
  · cases config
    all_goals
      unfold JsonConfigLoader.save_config jsonEncodeOk
    all_goals
      split
      next e heq => rw [hres] at heq; exact Except.noConfusion heq
      next p2 heq =>
        have hp2 : p2 = p := by
          rw [hres] at heq
          exact (Except.ok.inj heq).symm
        subst hp2
        repeat' split
        all_goals simp_all

theorem save_config_returns_bool_never_raises_witness :
    (LoaderObj.init .yaml).check_path (.str "out.yaml") = .ok (.str "out.yaml") ∧
    ((PyVal.pydict [("key", .str "value")]).isDict = true ∨
      ∃ s, PyVal.pydict [("key", .str "value")] = .str s) ∧
    yamlEncodeOk ⟨[], []⟩ (.pydict [("key", .str "value")]) (.str "out.yaml") = true ∧
    jsonEncodeOk ⟨[], []⟩ (.pydict [("key", .str "value")]) (.str "out.yaml") = true ∧
    yamlEncodeOk ⟨[], ["out.yaml"]⟩ (.pydict [("key", .str "value")])
      (.str "out.yaml") = false ∧
    ((YamlConfigLoader.save_config ⟨[], []⟩ (LoaderObj.init .yaml)
        (.pydict [("key", .str "value")]) (.str "out.yaml")).1 =
      .ok (yamlEncodeOk ⟨[], []⟩ (.pydict [("key", .str "value")])
        (.str "out.yaml")) ∧
     (JsonConfigLoader.save_config ⟨[], []⟩ (LoaderObj.init .yaml)
        (.pydict [("key", .str "value")]) (.str "out.yaml")).1 =
      .ok (jsonEncodeOk ⟨[], []⟩ (.pydict [("key", .str "value")])
        (.str "out.yaml"))) :=
  ⟨rfl, Or.inl rfl, rfl, rfl, rfl,
    save_config_returns_bool_never_raises ⟨[], []⟩ (LoaderObj.init .yaml)
      (.pydict [("key", .str "value")]) (.str "out.yaml") (.str "out.yaml") rfl
      (Or.inl rfl)⟩

/-- **C3** (code bug): `save_config_to_file` returns `None` — not `True` —
when the underlying write succeeds, and `None` — not `False` — when it
fails (its body has no `return` statement, so the loader's boolean result
is discarded).  It does not raise on a write failure, and neither the
mapping nor `is_config_initialized` changes in either case. -/
theorem save_config_to_file_returns_none_not_bool :
    (let ok := sampleJsonStore.save_config_to_file ⟨[], []⟩ (.val PyVal.none)
     ok.1 = .ok PyVal.none ∧
     dget ok.2.2.files "config.json" = some "\x7b\n    \"key\": \"value\"\n\x7d" ∧
     dget ok.2.1.attrs "_ConfigManager__config_data" =
       some (.val (.pydict [("key", .str "value")])) ∧
     dget ok.2.1.attrs "is_config_initialized" = some (.val (.bool false))) ∧
    (let bad := sampleJsonStore.save_config_to_file ⟨[], ["config.json"]⟩ (.val PyVal.none)
     bad.1 = .ok PyVal.none ∧
     dget bad.2.1.attrs "_ConfigManager__config_data" =
       some (.val (.pydict [("key", .str "value")])) ∧
     dget bad.2.1.attrs "is_config_initialized" = some (.val (.bool false))) ∧
    PyVal.none ≠ PyVal.bool true ∧ PyVal.none ≠ PyVal.bool false := by
  exact ⟨⟨rfl, rfl, rfl, rfl⟩, ⟨rfl, rfl, rfl⟩, fun h => PyVal.noConfusion h,
    fun h => PyVal.noConfusion h⟩

/-- **C4** (code bug): resolving with an explicit path returns it, and the
no-argument / ill-typed argument cases fail by assertion; but the path a
`load_config` call stores lands on the *subclass*-mangled slot
(`_JsonConfigLoader__file_path` / `_YamlConfigLoader__file_path`), while
`check_path`'s no-argument fallback reads the *base*-mangled slot
`_ConfigLoaderBase__file_path`, which stays `None` — so a later resolve
with no path asserts instead of returning the remembered path. -/
theorem loaded_path_not_remembered_for_check_path :
    ((LoaderObj.init .json).check_path (.str "config.json") = .ok (.str "config.json")) ∧
    ((LoaderObj.init .json).check_path (.int 123) =
      .error (.assertionError "File path must be str or path")) ∧
    ((LoaderObj.init .json).check_path PyVal.none =
      .error (.assertionError "File path must be set")) ∧
    (let l2 := (JsonConfigLoader.load_config fsWithJson (LoaderObj.init .json)
        (.str "config.json")).2
     dget l2.attrs "_JsonConfigLoader__file_path" = some (.str "config.json") ∧
     dget l2.attrs "_ConfigLoaderBase__file_path" = some PyVal.none ∧
     l2.check_path PyVal.none = .error (.assertionError "File path must be set")) ∧
    (let l3 := (YamlConfigLoader.load_config fsWithYaml (LoaderObj.init .yaml)
        (.str "config.yaml")).2
     dget l3.attrs "_YamlConfigLoader__file_path" = some (.str "config.yaml") ∧
     dget l3.attrs "_ConfigLoaderBase__file_path" = some PyVal.none ∧
     l3.check_path PyVal.none = .error (.assertionError "File path must be set")) := by
  exact ⟨rfl, rfl, rfl, ⟨rfl, rfl, rfl⟩, ⟨rfl, rfl, rfl⟩⟩

/-- **C5**: with the loader and path slots populated and the loader's
decode returning `v`, the private load raises `ValueError`
(`InvalidConfigError`) and leaves both the mapping and the
initialization flag exactly as they were when `v` is not a mapping or is
an empty mapping; when `v` is a non-empty mapping it replaces the mapping
wholesale with `v` and sets the flag to `True`. -/
theorem load_rejects_nonmapping_and_empty (fs : FS) (cm : ConfigManager)
    (l l2 : LoaderObj) (fp v : PyVal) (d0 i0 : Attr)
    (h0 : dget cm.attrs "__config" = Option.none)
    (hl : dget cm.attrs "_ConfigManager__config_loader" = some (.loaderA l))
    (hp : dget cm.attrs "_ConfigManager__config_file_path" = some (.val fp))
    (hd : dget cm.attrs "_ConfigManager__config_data" = some d0)
    (hi : dget cm.attrs "is_config_initialized" = some i0)
    (hrun : runLoad fs l fp = (.ok v, l2)) :
    (v.isDict = false →
       (cm.loadConfigFile fs).1 =
         .error (.valueError "Loaded config data must be a dictionary") ∧
       dget (cm.loadConfigFile fs).2.attrs "_ConfigManager__config_data" = some d0 ∧
       dget (cm.loadConfigFile fs).2.attrs "is_config_initialized" = some i0) ∧
    (v = .pydict [] →
       (cm.loadConfigFile fs).1 = .error (.valueError "Loaded config data is empty") ∧
       dget (cm.loadConfigFile fs).2.attrs "_ConfigManager__config_data" = some d0 ∧
       dget (cm.loadConfigFile fs).2.attrs "is_config_initialized" = some i0) ∧
    (∀ es, v = .pydict es → es ≠ [] →
       (cm.loadConfigFile fs).1 = .ok () ∧
       dget (cm.loadConfigFile fs).2.attrs "_ConfigManager__config_data" =
         some (.val (.pydict es)) ∧
       dget (cm.loadConfigFile fs).2.attrs "is_config_initialized" =
         some (.val (.bool true))) := by
  have h0cm2 : dget (cm.rawWrite "_ConfigManager__config_loader"
      (Attr.loaderA l2)).attrs "__config" = Option.none := by
    rw [dget_rawWrite_ne _ _ _ _ (by decide)]; exact h0
  have hfd : dget (cm.rawWrite "_ConfigManager__config_loader"
      (Attr.loaderA l2)).attrs "_ConfigManager__config_data" = some d0 := by
    rw [dget_rawWrite_ne _ _ _ _ (by decide)]; exact hd
  have hfi : dget (cm.rawWrite "_ConfigManager__config_loader"
      (Attr.loaderA l2)).attrs "is_config_initialized" = some i0 := by
    rw [dget_rawWrite_ne _ _ _ _ (by decide)]; exact hi
  have hsetData : ∀ a, (cm.rawWrite "_ConfigManager__config_loader"
      (Attr.loaderA l2)).setattr "_ConfigManager__config_data" a =
      .ok ((cm.rawWrite "_ConfigManager__config_loader"
        (Attr.loaderA l2)).rawWrite "_ConfigManager__config_data" a) :=
    fun a => setattr_plain_name _ _ a h0cm2 (by decide) (by decide) (by decide)
  have hsetInit : ∀ (m : List (String × PyVal)) (a : Attr),
      (((cm.rawWrite "_ConfigManager__config_loader" (Attr.loaderA l2)).rawWrite
          "_ConfigManager__config_data" (Attr.val (PyVal.pydict m))).setattr
        "is_config_initialized" a) =
      .ok (((cm.rawWrite "_ConfigManager__config_loader" (Attr.loaderA l2)).rawWrite
          "_ConfigManager__config_data" (Attr.val (PyVal.pydict m))).rawWrite
        "is_config_initialized" a) :=
    fun m a => setattr_plain_name _ _ a
      (by rw [dget_rawWrite_ne _ _ _ _ (by decide)]; exact h0cm2)
      (by decide) (by decide) (by decide)
  have hne1 : ∀ (c : ConfigManager) (a : Attr),
      dget (c.rawWrite "is_config_initialized" a).attrs "_ConfigManager__config_data" =
      dget c.attrs "_ConfigManager__config_data" :=
    fun c a => dget_rawWrite_ne c _ _ a (by decide)
  refine ⟨?_, ?_, ?_⟩
  · intro hv
    unfold ConfigManager.loadConfigFile
    cases v
    case pydict m => simp [PyVal.isDict] at hv
    all_goals
      refine ⟨?_, ?_, ?_⟩ <;>
        simp only [rawGet_of_dget cm _ _ hl, rawGet_of_dget cm _ _ hp, hrun,
          hfd, hfi]
  · intro hv
    subst hv
    unfold ConfigManager.loadConfigFile
    refine ⟨?_, ?_, ?_⟩ <;>
      simp only [rawGet_of_dget cm _ _ hl, rawGet_of_dget cm _ _ hp, hrun,
        List.isEmpty, hfd, hfi, if_true]
  · intro es hv hne
    subst hv
    cases es with
    | nil => exact absurd rfl hne
    | cons e0 es2 =>
      unfold ConfigManager.loadConfigFile
      refine ⟨?_, ?_, ?_⟩ <;>
        simp only [rawGet_of_dget cm _ _ hl, rawGet_of_dget cm _ _ hp, hrun,
          List.isEmpty, hsetData, hsetInit, hne1, dget_rawWrite_self,
          Bool.false_eq_true, if_false]

theorem load_rejects_nonmapping_and_empty_witness :
    dget sampleJsonStore.attrs "__config" = Option.none ∧
    dget sampleJsonStore.attrs "_ConfigManager__config_loader" =
      some (.loaderA (LoaderObj.init .json)) ∧
    dget sampleJsonStore.attrs "_ConfigManager__config_file_path" =
      some (.val (.str "config.json")) ∧
    dget sampleJsonStore.attrs "_ConfigManager__config_data" =
      some (.val (.pydict [("key", .str "value")])) ∧
    dget sampleJsonStore.attrs "is_config_initialized" =
      some (.val (.bool false)) ∧
    runLoad fsWithJson (LoaderObj.init .json) (.str "config.json") =
      (.ok (.pydict [("key", .str "value")]),
       ⟨.json, [("_ConfigLoaderBase__file_path", PyVal.none),
                ("_JsonConfigLoader__file_path", .str "config.json")]⟩) ∧
    (∀ es, PyVal.pydict [("key", .str "value")] = .pydict es → es ≠ [] →
       (sampleJsonStore.loadConfigFile fsWithJson).1 = .ok () ∧
       dget (sampleJsonStore.loadConfigFile fsWithJson).2.attrs
         "_ConfigManager__config_data" = some (.val (.pydict es)) ∧
       dget (sampleJsonStore.loadConfigFile fsWithJson).2.attrs
         "is_config_initialized" = some (.val (.bool true))) :=
  ⟨rfl, rfl, rfl, rfl, rfl, rfl,
    (load_rejects_nonmapping_and_empty fsWithJson sampleJsonStore
      (LoaderObj.init .json)
      ⟨.json, [("_ConfigLoaderBase__file_path", PyVal.none),
               ("_JsonConfigLoader__file_path", .str "config.json")]⟩
      (.str "config.json") (.pydict [("key", .str "value")])
      (.val (.pydict [("key", .str "value")])) (.val (.bool false))
      rfl rfl rfl rfl rfl rfl).2.2⟩

/-- **C9**: `load_config_from_file` assigns the effective path and loader
through the validating property setters *before* attempting the decode, so
when the private load then fails the store's remembered path, format tag
and loader already hold the new effective values; only the mapping and the
initialization flag are left unchanged by the failed load. -/
theorem failed_load_keeps_updated_path_and_loader (fs : FS)
    (cm cm3 : ConfigManager) (loaderArg fpArg : Attr) (pv : PyVal)
    (l : LoaderObj) (e : PyErr) (d0 i0 : Attr)
    (h0 : dget cm.attrs "__config" = Option.none)
    (hd : dget cm.attrs "_ConfigManager__config_data" = some d0)
    (hi : dget cm.attrs "is_config_initialized" = some i0)
    (hrp : (if attrTruthy fpArg then Except.ok fpArg
            else cm.rawGet "_ConfigManager__config_file_path") = .ok (.val pv))
    (hpv : isStrOrPath pv = true)
    (hrl : (if attrTruthy loaderArg then Except.ok loaderArg
            else (cm.rawWrite "_ConfigManager__config_file_path"
              (.val pv)).rawGet "_ConfigManager__config_loader") =
      .ok (.loaderA l))
    (hfail : (((cm.rawWrite "_ConfigManager__config_file_path" (.val pv)).rawWrite
          "_ConfigManager__config_file_type"
          (.val (.str (ConfigManager.loaderTag l.kind)))).rawWrite
        "_ConfigManager__config_loader" (.loaderA l)).loadConfigFile fs =
      (.error e, cm3)) :
    cm.load_config_from_file fs loaderArg fpArg = (.error e, cm3) ∧
    dget cm3.attrs "_ConfigManager__config_file_path" = some (.val pv) ∧
    dget cm3.attrs "_ConfigManager__config_file_type" =
      some (.val (.str (ConfigManager.loaderTag l.kind))) ∧
    (∃ l2, dget cm3.attrs "_ConfigManager__config_loader" = some (.loaderA l2) ∧
       l2.kind = l.kind) ∧
    dget cm3.attrs "_ConfigManager__config_data" = some d0 ∧
    dget cm3.attrs "is_config_initialized" = some i0 := by
  have h0cm1 : dget (cm.rawWrite "_ConfigManager__config_file_path"
      (Attr.val pv)).attrs "__config" = Option.none := by
    rw [dget_rawWrite_ne _ _ _ _ (by decide)]; exact h0
  have h0cm2 : dget ((((cm.rawWrite "_ConfigManager__config_file_path"
      (Attr.val pv)).rawWrite "_ConfigManager__config_file_type"
      (Attr.val (PyVal.str (ConfigManager.loaderTag l.kind)))).rawWrite
      "_ConfigManager__config_loader" (Attr.loaderA l))).attrs "__config" =
      Option.none := by
    rw [dget_rawWrite_ne _ _ _ _ (by decide),
      dget_rawWrite_ne _ _ _ _ (by decide)]
    exact h0cm1
  have hl2 : dget ((((cm.rawWrite "_ConfigManager__config_file_path"
      (Attr.val pv)).rawWrite "_ConfigManager__config_file_type"
      (Attr.val (PyVal.str (ConfigManager.loaderTag l.kind)))).rawWrite
      "_ConfigManager__config_loader" (Attr.loaderA l))).attrs
      "_ConfigManager__config_loader" = some (.loaderA l) :=
    dget_rawWrite_self _ _ _
  obtain ⟨hfd, hfi, hfp, hft, l2, hl2E, hkind⟩ :=
    loadConfigFile_error_frame fs _ cm3 l e h0cm2 hl2 hfail
  refine ⟨?_, ?_, ?_, ⟨l2, hl2E, hkind⟩, ?_, ?_⟩
  · unfold ConfigManager.load_config_from_file
    simp only [hrp, setattr_path_setter cm pv h0 hpv, hrl,
      setattr_loader_setter _ l h0cm1, hfail]
  · rw [hfp, dget_rawWrite_ne _ _ _ _ (by decide),
      dget_rawWrite_ne _ _ _ _ (by decide), dget_rawWrite_self]
  · rw [hft, dget_rawWrite_ne _ _ _ _ (by decide), dget_rawWrite_self]
  · rw [hfd, dget_rawWrite_ne _ _ _ _ (by decide),
      dget_rawWrite_ne _ _ _ _ (by decide),
      dget_rawWrite_ne _ _ _ _ (by decide)]
    exact hd
  · rw [hfi, dget_rawWrite_ne _ _ _ _ (by decide),
      dget_rawWrite_ne _ _ _ _ (by decide),
      dget_rawWrite_ne _ _ _ _ (by decide)]
    exact hi

theorem failed_load_keeps_updated_path_and_loader_witness :
    (let cm0 : ConfigManager :=
      ⟨initAttrs (.val (.str "config.json")) (.loaderA (LoaderObj.init .json))⟩
     let l2 : LoaderObj :=
      ⟨.json, [("_ConfigLoaderBase__file_path", PyVal.none),
               ("_JsonConfigLoader__file_path", .str "config.json")]⟩
     let cm3 : ConfigManager :=
      ⟨[("_ConfigManager__config_data", .val (.pydict [])),
        ("is_config_initialized", .val (.bool false)),
        ("_ConfigManager__config_file_type", .val (.str "json")),
        ("_ConfigManager__config_file_path", .val (.str "config.json")),
        ("_ConfigManager__config_loader", .loaderA l2)]⟩
     dget cm0.attrs "__config" = Option.none ∧
     dget cm0.attrs "_ConfigManager__config_data" =
       some (.val (.pydict [])) ∧
     dget cm0.attrs "is_config_initialized" = some (.val (.bool false)) ∧
     (if attrTruthy (.val PyVal.none) then Except.ok (.val PyVal.none)
      else cm0.rawGet "_ConfigManager__config_file_path") =
       .ok (.val (.str "config.json")) ∧
     isStrOrPath (.str "config.json") = true ∧
     (if attrTruthy (.val PyVal.none) then Except.ok (.val PyVal.none)
      else (cm0.rawWrite "_ConfigManager__config_file_path"
        (.val (.str "config.json"))).rawGet "_ConfigManager__config_loader") =
       .ok (.loaderA (LoaderObj.init .json)) ∧
     (((cm0.rawWrite "_ConfigManager__config_file_path"
           (.val (.str "config.json"))).rawWrite
         "_ConfigManager__config_file_type"
         (.val (.str (ConfigManager.loaderTag LoaderKind.json)))).rawWrite
       "_ConfigManager__config_loader"
       (.loaderA (LoaderObj.init .json))).loadConfigFile ⟨[], []⟩ =
       (.error (.fileNotFound "File not found: config.json"), cm3) ∧
     (cm0.load_config_from_file ⟨[], []⟩ (.val PyVal.none) (.val PyVal.none) =
        (.error (.fileNotFound "File not found: config.json"), cm3) ∧
      dget cm3.attrs "_ConfigManager__config_file_path" =
        some (.val (.str "config.json")) ∧
      dget cm3.attrs "_ConfigManager__config_file_type" =
        some (.val (.str (ConfigManager.loaderTag LoaderKind.json))) ∧
      (∃ lx, dget cm3.attrs "_ConfigManager__config_loader" =
         some (.loaderA lx) ∧ lx.kind = LoaderKind.json) ∧
      dget cm3.attrs "_ConfigManager__config_data" =
        some (.val (.pydict [])) ∧
      dget cm3.attrs "is_config_initialized" = some (.val (.bool false)))) :=
  ⟨rfl, rfl, rfl, rfl, rfl, rfl, rfl,
    failed_load_keeps_updated_path_and_loader ⟨[], []⟩
      ⟨initAttrs (.val (.str "config.json")) (.loaderA (LoaderObj.init .json))⟩
      ⟨[("_ConfigManager__config_data", .val (.pydict [])),
        ("is_config_initialized", .val (.bool false)),
        ("_ConfigManager__config_file_type", .val (.str "json")),
        ("_ConfigManager__config_file_path", .val (.str "config.json")),
        ("_ConfigManager__config_loader", .loaderA
          ⟨.json, [("_ConfigLoaderBase__file_path", PyVal.none),
                   ("_JsonConfigLoader__file_path", .str "config.json")]⟩)]⟩
      (.val PyVal.none) (.val PyVal.none) (.str "config.json")
      (LoaderObj.init .json) (.fileNotFound "File not found: config.json")
      (.val (.pydict [])) (.val (.bool false))
      rfl rfl rfl rfl rfl rfl rfl⟩

/-- **C10**: the constructor stores its `file_path` and `config_loader_`
arguments verbatim, with no validation — construction succeeds for every
argument value, including `None` and values of the wrong type — while the
property setters reject `None` and ill-typed values with `ValueError`
(`InvalidArgumentError`); rejection therefore happens only when a value
later passes through a setter, as on the first load or save. -/
theorem constructor_stores_arguments_unvalidated (fp l : Attr)
    (cm : ConfigManager) (w v : PyVal)
    (h0 : dget cm.attrs "__config" = Option.none)
    (hv : isStrOrPath v = false) :
    ConfigManager.init fp l = .ok ⟨initAttrs fp l⟩ ∧
    dget (initAttrs fp l) "_ConfigManager__config_file_path" = some fp ∧
    dget (initAttrs fp l) "_ConfigManager__config_loader" = some l ∧
    (∃ m, cm.setattr "config_loader" (.val w) = .error (.valueError m)) ∧
    (∃ m, cm.setattr "config_file_path" (.val v) = .error (.valueError m)) := by
  have hg := guard_of_dget_none cm h0
  refine ⟨init_eq fp l, rfl, rfl, ?_, ?_⟩
  · refine ⟨if w.isNone then "Loader must contain a value"
      else "Loader must be an instance of < class ConfigLoaderBase > or its subclasses",
      ?_⟩
    cases w <;>
      simp [ConfigManager.setattr, ConfigManager.objectSetattr,
        ConfigManager.configLoaderSetter, PyVal.isNone, hg]
  · refine ⟨if v.isNone then "File path must contain a value"
      else "File path must be str or path", ?_⟩
    cases v <;>
      simp_all [ConfigManager.setattr, ConfigManager.objectSetattr,
        ConfigManager.configFilePathSetter, PyVal.isNone, isStrOrPath, hg]

theorem constructor_stores_arguments_unvalidated_witness :
    (let fp : Attr := .val PyVal.none
     let l : Attr := .val (.str "InvalidLoader")
     let cm : ConfigManager := ⟨initAttrs fp l⟩
     dget cm.attrs "__config" = Option.none ∧
     isStrOrPath (.int 123) = false ∧
     (ConfigManager.init fp l = .ok ⟨initAttrs fp l⟩ ∧
      dget (initAttrs fp l) "_ConfigManager__config_file_path" = some fp ∧
      dget (initAttrs fp l) "_ConfigManager__config_loader" = some l ∧
      (∃ m, cm.setattr "config_loader" (.val (.str "InvalidLoader")) =
        .error (.valueError m)) ∧
      (∃ m, cm.setattr "config_file_path" (.val (.int 123)) =
        .error (.valueError m)))) :=
  ⟨rfl, rfl,
    constructor_stores_arguments_unvalidated (.val PyVal.none)
      (.val (.str "InvalidLoader"))
      ⟨initAttrs (.val PyVal.none) (.val (.str "InvalidLoader"))⟩
      (.str "InvalidLoader") (.int 123) rfl rfl⟩

/-- **C8**: encoding the mapping `{"key": "value"}` with a variant's
`save_config` and decoding the written file with the same variant's
`load_config` returns an equal mapping, for both the JSON and the YAML
variant. -/
theorem save_then_load_roundtrip :
    (let saved := JsonConfigLoader.save_config ⟨[], []⟩ (LoaderObj.init .json)
        (.pydict [("key", .str "value")]) (.str "config.json")
     saved.1 = .ok true ∧
     (JsonConfigLoader.load_config saved.2 (LoaderObj.init .json) (.str "config.json")).1 =
       .ok (.pydict [("key", .str "value")])) ∧
    (let saved := YamlConfigLoader.save_config ⟨[], []⟩ (LoaderObj.init .yaml)
        (.pydict [("key", .str "value")]) (.str "config.yaml")
     saved.1 = .ok true ∧
     (YamlConfigLoader.load_config saved.2 (LoaderObj.init .yaml) (.str "config.yaml")).1 =
       .ok (.pydict [("key", .str "value")])) := by
  exact ⟨⟨rfl, rfl⟩, ⟨rfl, rfl⟩⟩

end Pynamixel
